import Mathlib

/-!
Verification development for the Voltage API SDK (TypeScript client).

The definitions below are a shallow embedding of `src/voltage-client.ts`
(the `VoltageClient` resource methods and the two payment pollers) and of
the compiled `http-client` (auth-header selection, response classification,
query-string assembly).  Strings are modelled as Lean `String`s; JavaScript
string falsiness (`!s` true for `undefined` and `""`) is modelled by the
empty string unless noted; `crypto.randomUUID()` is modelled as an injected
fresh identifier; wall-clock time is modelled by an explicit elapsed-ms
counter where each GET takes a caller-supplied duration and each sleep
takes exactly `intervalMs`.
-/

namespace Voltage

/-- Structured error payload carried by a payment, `{type, detail}` in the
TypeScript types. -/
structure PaymentError where
  type : String
  detail : String
deriving Repr, DecidableEq

/-- The fields of a fetched payment that the pollers inspect: `direction`
(`"send"` or `"receive"`), `status`, and the optional structured `error`.
The remaining payment fields (wallet id, amounts, timestamps, ...) do not
influence any control flow verified here and are collapsed into `rest`. -/
structure Payment where
  id : String
  direction : String
  status : String
  error : Option PaymentError
  rest : String
deriving Repr, DecidableEq

/-- Outcome of one `getPayment` GET inside the poller: the parsed payment on
a 2xx response, or a thrown error (HTTP / transport) with its message. -/
inductive GetOutcome where
  | success (p : Payment)
  | failure (msg : String)
deriving Repr, DecidableEq

/-- Result of the `try`-block body of one poller iteration: return a value,
throw an error with the given message, or fall through to the sleep at the
bottom of the loop body. -/
inductive TryResult where
  | ret (p : Payment)
  | thrown (msg : String)
  | cont
deriving Repr, DecidableEq

/-- Final outcome of a polling run: the promise resolves with a payment or
rejects with an error message. -/
inductive PollOutcome where
  | resolved (p : Payment)
  | rejected (msg : String)
deriving Repr, DecidableEq

/-- `leadsWith p l` holds when `p` is an initial segment of `l`. -/
def leadsWith : List Char → List Char → Bool
  | [], _ => true
  | _ :: _, [] => false
  | c :: p, d :: l => c == d && leadsWith p l

/-- `occursIn p l` holds when `p` occurs contiguously inside `l`. -/
def occursIn (p : List Char) : List Char → Bool
  | [] => leadsWith p []
  | d :: l => leadsWith p (d :: l) || occursIn p l

/-- JavaScript `String.prototype.includes`: substring containment. -/
def strIncludes (s pat : String) : Bool :=
  occursIn pat.toList s.toList

/-- Caller-supplied polling overrides (`PollingConfig` in `types.ts`): every
field optional. -/
structure PollingConfig where
  maxAttempts : Option Nat
  intervalMs : Option Nat
  timeoutMs : Option Nat
deriving Repr, DecidableEq

/-- `Required<PollingConfig>`: a fully resolved polling configuration. -/
structure RequiredPollingConfig where
  maxAttempts : Nat
  intervalMs : Nat
  timeoutMs : Nat
deriving Repr, DecidableEq

/-- `DEFAULT_POLLING_CONFIG` from `types.ts`: 30 attempts, 1000 ms interval,
30000 ms timeout. -/
def DEFAULT_POLLING_CONFIG : RequiredPollingConfig :=
  { maxAttempts := 30, intervalMs := 1000, timeoutMs := 30000 }

/-- The spread merge `{...DEFAULT_POLLING_CONFIG, ...pollingConfig}`: each
override field present in the caller's config wins, absent fields keep the
default. -/
def mergePollingConfig (o : Option PollingConfig) : RequiredPollingConfig :=
  match o with
  | none => DEFAULT_POLLING_CONFIG
  | some c =>
    { maxAttempts := c.maxAttempts.getD DEFAULT_POLLING_CONFIG.maxAttempts
      intervalMs := c.intervalMs.getD DEFAULT_POLLING_CONFIG.intervalMs
      timeoutMs := c.timeoutMs.getD DEFAULT_POLLING_CONFIG.timeoutMs }

/-- Message of the receive poller's timeout error. -/
def pollTimeoutMessage (cfg : RequiredPollingConfig) : String :=
  "Payment polling timed out after " ++ toString cfg.timeoutMs ++ "ms"

/-- Message of the receive poller's attempt-exhaustion error. -/
def pollExhaustMessage (cfg : RequiredPollingConfig) : String :=
  "Payment polling failed after " ++ toString cfg.maxAttempts ++ " attempts"

/-- Message of the send poller's timeout error. -/
def sendPollTimeoutMessage (cfg : RequiredPollingConfig) : String :=
  "Send payment polling timed out after " ++ toString cfg.timeoutMs ++ "ms"

/-- Message of the send poller's attempt-exhaustion error. -/
def sendPollExhaustMessage (cfg : RequiredPollingConfig) : String :=
  "Send payment polling failed after " ++ toString cfg.maxAttempts ++ " attempts"

/-- The error message synthesized by `pollForPayment` for a receive payment
whose status is `failed`, matching on the structured error payload. -/
def receiveFailureMessage : Option PaymentError → String
  | none => "Payment generation failed"
  | some e =>
    if e.type = "receive_failed" then "Payment generation failed: " ++ e.detail
    else if e.type = "expired" then "Payment generation failed: Payment expired"
    else "Payment generation failed"

/-- The error message synthesized by `pollForSendPayment` for a send payment
whose status is `failed`. -/
def sendFailureMessage : Option PaymentError → String
  | none => "Send payment failed"
  | some e => "Send payment failed: " ++ e.detail

/-- The `try`-block body of one `pollForPayment` iteration: direction guard,
then the transient / failed / ready status dispatch. -/
def receiveTryBody (o : GetOutcome) : TryResult :=
  match o with
  | .failure msg => .thrown msg
  | .success p =>
    if p.direction ≠ "receive" then
      .thrown ("Expected receive payment but got send payment")
    else if p.status ≠ "generating" then
      if p.status = "failed" then .thrown (receiveFailureMessage p.error)
      else .ret p
    else .cont

/-- The `try`-block body of one `pollForSendPayment` iteration. -/
def sendTryBody (o : GetOutcome) : TryResult :=
  match o with
  | .failure msg => .thrown msg
  | .success p =>
    if p.direction ≠ "send" then
      .thrown ("Expected send payment but got receive payment")
    else if p.status ≠ "sending" then
      if p.status = "failed" then .thrown (sendFailureMessage p.error)
      else .ret p
    else .cont

/-- The receive poller's `catch` clause re-throws exactly the errors whose
message includes `timed out` or `Payment generation failed`; every other
error is swallowed and retried. -/
def receiveCatchRethrows (msg : String) : Bool :=
  strIncludes msg ("timed out") || strIncludes msg ("Payment generation failed")

/-- The send poller's `catch` clause re-throws exactly the errors whose
message includes `timed out` or `Send payment failed`. -/
def sendCatchRethrows (msg : String) : Bool :=
  strIncludes msg ("timed out") || strIncludes msg ("Send payment failed")

/-- The shared polling loop of `pollForPayment` / `pollForSendPayment`.
Arguments after the configuration: remaining attempts
(`maxAttempts - attempts`), the index of the next GET (= GETs made so far),
and elapsed wall-clock milliseconds.  `script k` is the outcome of the
`k`-th GET, `getDur k` its duration.  Returns the promise outcome together
with the total number of GETs performed. -/
def pollLoopAux (body : GetOutcome → TryResult) (rethrows : String → Bool)
    (timeoutMessage exhaustMessage : String)
    (script : Nat → GetOutcome) (getDur : Nat → Nat)
    (cfg : RequiredPollingConfig) :
    Nat → Nat → Nat → PollOutcome × Nat
  | 0, k, _ => (.rejected exhaustMessage, k)
  | r + 1, k, t =>
    if cfg.timeoutMs < t then (.rejected timeoutMessage, k)
    else
      match body (script k) with
      | .ret p => (.resolved p, k + 1)
      | .cont =>
        pollLoopAux body rethrows timeoutMessage exhaustMessage script getDur cfg
          r (k + 1) (t + getDur k + cfg.intervalMs)
      | .thrown m =>
        if rethrows m then (.rejected m, k + 1)
        else
          pollLoopAux body rethrows timeoutMessage exhaustMessage script getDur cfg
            r (k + 1) (t + getDur k + cfg.intervalMs)

/-- `pollForPayment` (receive variant): run the loop from a fresh attempt
counter and start time. -/
def pollForPayment (script : Nat → GetOutcome) (getDur : Nat → Nat)
    (cfg : RequiredPollingConfig) : PollOutcome × Nat :=
  pollLoopAux receiveTryBody receiveCatchRethrows
    (pollTimeoutMessage cfg) (pollExhaustMessage cfg)
    script getDur cfg cfg.maxAttempts 0 0

/-- `pollForSendPayment` (send variant). -/
def pollForSendPayment (script : Nat → GetOutcome) (getDur : Nat → Nat)
    (cfg : RequiredPollingConfig) : PollOutcome × Nat :=
  pollLoopAux sendTryBody sendCatchRethrows
    (sendPollTimeoutMessage cfg) (sendPollExhaustMessage cfg)
    script getDur cfg cfg.maxAttempts 0 0

/-- JavaScript `given || fallback` on an optional string id: the fallback is
used when the id is absent (`undefined`) or the empty string. -/
def jsOr : Option String → String → String
  | none, fallback => fallback
  | some s, fallback => if s = "" then fallback else s

/-- One HTTP request issued through the `HttpClient`: its method and the
endpoint path (query string included). -/
structure Req where
  method : String
  path : String
deriving Repr, DecidableEq

/-- `NewWalletRequest`: the wallet-creation payload; only its optional `id`
matters to the logic verified here, the other fields are collapsed into
`rest`. -/
structure NewWalletRequest where
  id : Option String
  rest : String
deriving Repr, DecidableEq

/-- `ReceivePaymentRequest`: the payment-request creation payload. -/
structure ReceivePaymentRequest where
  id : Option String
  rest : String
deriving Repr, DecidableEq

/-- `SendPaymentRequestData`: the send-payment creation payload. -/
structure SendPaymentRequestData where
  id : Option String
  rest : String
deriving Repr, DecidableEq

/-- `NewWebhookRequest`: the webhook-creation payload. -/
structure NewWebhookRequest where
  id : Option String
  rest : String
deriving Repr, DecidableEq

/-- Path of the wallets collection of an organization. -/
def walletsPath (organization_id : String) : String :=
  "/organizations/" ++ organization_id ++ "/wallets"

/-- Path of the payments collection of an environment. -/
def paymentsPath (organization_id environment_id : String) : String :=
  "/organizations/" ++ organization_id ++ "/environments/" ++ environment_id ++ "/payments"

/-- Path of one payment. -/
def getPaymentPath (organization_id environment_id payment_id : String) : String :=
  paymentsPath organization_id environment_id ++ "/" ++ payment_id

/-- Path of the webhooks collection of an environment. -/
def webhooksPath (organization_id environment_id : String) : String :=
  "/organizations/" ++ organization_id ++ "/environments/" ++ environment_id ++ "/webhooks"

/-- An optional list-endpoint filter value after destructuring: absent
(`undefined` or `null`), a scalar already rendered by `toString()`, or an
array of rendered elements. -/
inductive FilterValue where
  | missing
  | scalar (v : String)
  | many (vs : List String)
deriving Repr, DecidableEq

/-- Uppercase hexadecimal digit. -/
def hexDigitChar (n : Nat) : Char :=
  if n < 10 then Char.ofNat (48 + n) else Char.ofNat (55 + n)

/-- Percent-encoding of one byte, `%XX` with uppercase hex. -/
def percentByte (b : Nat) : String :=
  "%" ++ String.singleton (hexDigitChar (b / 16)) ++ String.singleton (hexDigitChar (b % 16))

/-- Characters that `URLSearchParams` serialization leaves unencoded
(the `application/x-www-form-urlencoded` safe set). -/
def formSafeChar (c : Char) : Bool :=
  c.isAlphanum || c == '*' || c == '-' || c == '.' || c == '_'

/-- Form-urlencoding of one character: safe characters verbatim, space as
`+`, anything else as percent-encoded UTF-8 bytes. -/
def encodeChar (c : Char) : String :=
  if formSafeChar c then String.singleton c
  else if c == ' ' then "+"
  else String.join ((String.toUTF8 (String.singleton c)).toList.map (fun b => percentByte b.toNat))

/-- Form-urlencoding of a string, as `URLSearchParams` applies to each key
and value. -/
def urlEncode (s : String) : String :=
  String.join (s.toList.map encodeChar)

/-- One step of the `Object.entries(filters).forEach` loop: skip absent
values, `append` a scalar, `append` each array element in order. -/
def appendFilter (acc : List (String × String)) : String × FilterValue → List (String × String)
  | (_, .missing) => acc
  | (k, .scalar v) => acc ++ [(k, v)]
  | (k, .many vs) => acc ++ vs.map (fun v => (k, v))

/-- The accumulated `URLSearchParams` entries for a filter record, in
iteration order. -/
def buildQueryParams (filters : List (String × FilterValue)) : List (String × String) :=
  filters.foldl appendFilter []

/-- `URLSearchParams.toString()`: `k=v` pairs joined by `&`, keys and values
form-urlencoded. -/
def renderQueryString (ps : List (String × String)) : String :=
  String.intercalate "&" (ps.map (fun p => urlEncode p.1 ++ "=" ++ urlEncode p.2))

/-- Append the serialized query string to a path, with no `?` when the
query string is empty. -/
def withQuery (path : String) (filters : List (String × FilterValue)) : String :=
  let queryString := renderQueryString (buildQueryParams filters)
  path ++ (if queryString = "" then "" else "?" ++ queryString)

/-- The scalar-only variant used by `getWalletLedger`, whose filter loop has
no array branch. -/
def appendScalarFilter (acc : List (String × String)) : String × Option String → List (String × String)
  | (_, none) => acc
  | (k, some v) => acc ++ [(k, v)]

/-- Query entries of `getWalletLedger`'s filters. -/
def buildScalarQueryParams (filters : List (String × Option String)) : List (String × String) :=
  filters.foldl appendScalarFilter []

/-- Path plus query for `getWalletLedger`. -/
def withScalarQuery (path : String) (filters : List (String × Option String)) : String :=
  let queryString := renderQueryString (buildScalarQueryParams filters)
  path ++ (if queryString = "" then "" else "?" ++ queryString)

/-- `getWallets`. -/
def getWallets (organization_id : String) : Except String Req :=
  if organization_id = "" then .error ("organization_id is required")
  else .ok ⟨"GET", walletsPath organization_id⟩

/-- `getWallet`. -/
def getWallet (organization_id wallet_id : String) : Except String Req :=
  if organization_id = "" ∨ wallet_id = "" then
    .error ("organization_id and wallet_id are required")
  else .ok ⟨"GET", walletsPath organization_id ++ "/" ++ wallet_id⟩

/-- `createWallet`: validates, then POSTs the wallet payload unchanged (the
returned pair is the request and its outgoing body). -/
def createWallet (organization_id : String) (wallet : Option NewWalletRequest) :
    Except String (Req × NewWalletRequest) :=
  if organization_id = "" then .error ("organization_id is required")
  else
    match wallet with
    | none => .error ("wallet data is required")
    | some w => .ok (⟨"POST", walletsPath organization_id⟩, w)

/-- `deleteWallet`. -/
def deleteWallet (organization_id wallet_id : String) : Except String Req :=
  if organization_id = "" ∨ wallet_id = "" then
    .error ("organization_id and wallet_id are required")
  else .ok ⟨"DELETE", walletsPath organization_id ++ "/" ++ wallet_id⟩

/-- `getPayment`. -/
def getPayment (organization_id environment_id payment_id : String) : Except String Req :=
  if organization_id = "" ∨ environment_id = "" ∨ payment_id = "" then
    .error ("organization_id, environment_id, and payment_id are required")
  else .ok ⟨"GET", getPaymentPath organization_id environment_id payment_id⟩

/-- `getPayments`. -/
def getPayments (organization_id environment_id : String)
    (filters : List (String × FilterValue)) : Except String Req :=
  if organization_id = "" ∨ environment_id = "" then
    .error ("organization_id and environment_id are required")
  else .ok ⟨"GET", withQuery (paymentsPath organization_id environment_id) filters⟩

/-- `getWalletLedger`. -/
def getWalletLedger (organization_id wallet_id : String)
    (filters : List (String × Option String)) : Except String Req :=
  if organization_id = "" ∨ wallet_id = "" then
    .error ("organization_id and wallet_id are required")
  else
    .ok ⟨"GET", withScalarQuery
      ("/organizations/" ++ organization_id ++ "/wallets/" ++ wallet_id ++ "/ledger") filters⟩

/-- `getPaymentHistory`. -/
def getPaymentHistory (organization_id environment_id payment_id : String) : Except String Req :=
  if organization_id = "" ∨ environment_id = "" ∨ payment_id = "" then
    .error ("organization_id, environment_id, and payment_id are required")
  else .ok ⟨"GET", getPaymentPath organization_id environment_id payment_id ++ "/history"⟩

/-- `getLineOfCredit`. -/
def getLineOfCredit (organization_id line_id : String) : Except String Req :=
  if organization_id = "" ∨ line_id = "" then
    .error ("organization_id and line_id are required")
  else
    .ok ⟨"GET", "/organizations/" ++ organization_id ++ "/lines_of_credit/" ++ line_id ++ "/summary"⟩

/-- `getLinesOfCredit`. -/
def getLinesOfCredit (organization_id : String) : Except String Req :=
  if organization_id = "" then .error ("organization_id is required")
  else .ok ⟨"GET", "/organizations/" ++ organization_id ++ "/lines_of_credit/summaries"⟩

/-- `getWebhooks`. -/
def getWebhooks (organization_id : String)
    (filters : List (String × FilterValue)) : Except String Req :=
  if organization_id = "" then .error ("organization_id is required")
  else .ok ⟨"GET", withQuery ("/organizations/" ++ organization_id ++ "/webhooks") filters⟩

/-- `getWebhook`. -/
def getWebhook (organization_id environment_id webhook_id : String) : Except String Req :=
  if organization_id = "" ∨ environment_id = "" ∨ webhook_id = "" then
    .error ("organization_id, environment_id, and webhook_id are required")
  else .ok ⟨"GET", webhooksPath organization_id environment_id ++ "/" ++ webhook_id⟩

/-- `createWebhook`: validates, auto-generates the body id when absent, and
POSTs `{...webhook, id}` (the returned pair is the request and its outgoing
body). -/
def createWebhook (organization_id environment_id : String)
    (webhook : Option NewWebhookRequest) (fresh : String) :
    Except String (Req × NewWebhookRequest) :=
  if organization_id = "" ∨ environment_id = "" then
    .error ("organization_id and environment_id are required")
  else
    match webhook with
    | none => .error ("webhook data is required")
    | some w =>
      .ok (⟨"POST", webhooksPath organization_id environment_id⟩,
           { w with id := some (jsOr w.id fresh) })

/-- `updateWebhook` (the PATCH body is opaque to the verified logic). -/
def updateWebhook (organization_id environment_id webhook_id : String)
    (webhook : Option String) : Except String Req :=
  if organization_id = "" ∨ environment_id = "" ∨ webhook_id = "" then
    .error ("organization_id, environment_id, and webhook_id are required")
  else
    match webhook with
    | none => .error ("webhook data is required")
    | some _ => .ok ⟨"PATCH", webhooksPath organization_id environment_id ++ "/" ++ webhook_id⟩

/-- `deleteWebhook`. -/
def deleteWebhook (organization_id environment_id webhook_id : String) : Except String Req :=
  if organization_id = "" ∨ environment_id = "" ∨ webhook_id = "" then
    .error ("organization_id, environment_id, and webhook_id are required")
  else .ok ⟨"DELETE", webhooksPath organization_id environment_id ++ "/" ++ webhook_id⟩

/-- `startWebhook`. -/
def startWebhook (organization_id environment_id webhook_id : String) : Except String Req :=
  if organization_id = "" ∨ environment_id = "" ∨ webhook_id = "" then
    .error ("organization_id, environment_id, and webhook_id are required")
  else
    .ok ⟨"POST", webhooksPath organization_id environment_id ++ "/" ++ webhook_id ++ "/start"⟩

/-- `stopWebhook`. -/
def stopWebhook (organization_id environment_id webhook_id : String) : Except String Req :=
  if organization_id = "" ∨ environment_id = "" ∨ webhook_id = "" then
    .error ("organization_id, environment_id, and webhook_id are required")
  else
    .ok ⟨"POST", webhooksPath organization_id environment_id ++ "/" ++ webhook_id ++ "/stop"⟩

/-- `generateWebhookKey`. -/
def generateWebhookKey (organization_id environment_id webhook_id : String) : Except String Req :=
  if organization_id = "" ∨ environment_id = "" ∨ webhook_id = "" then
    .error ("organization_id, environment_id, and webhook_id are required")
  else
    .ok ⟨"POST", webhooksPath organization_id environment_id ++ "/" ++ webhook_id ++ "/keys"⟩

/-- Trace of one `createPaymentRequest` / `sendPayment` run after
validation: the id placed in the creation body, the creation POST, the path
every poll GET targets, the number of creation POSTs and poll GETs, and the
promise outcome. -/
structure PaymentRun where
  bodyId : String
  postReq : Req
  pollPath : String
  posts : Nat
  gets : Nat
  outcome : PollOutcome
deriving Repr, DecidableEq

/-- `createPaymentRequest`: validate, auto-generate the payment id when
absent, POST the creation body, then run the receive poller against that
same id.  `fresh` models `crypto.randomUUID()`; the POST is assumed
acknowledged (202). -/
def createPaymentRequest (organization_id environment_id : String)
    (payment : Option ReceivePaymentRequest) (fresh : String)
    (pollingConfig : Option PollingConfig)
    (script : Nat → GetOutcome) (getDur : Nat → Nat) : Except String PaymentRun :=
  if organization_id = "" ∨ environment_id = "" then
    .error ("organization_id and environment_id are required")
  else
    match payment with
    | none => .error ("payment data is required")
    | some pay =>
      let paymentId := jsOr pay.id fresh
      let config := mergePollingConfig pollingConfig
      let poll := pollForPayment script getDur config
      .ok { bodyId := paymentId
            postReq := ⟨"POST", paymentsPath organization_id environment_id⟩
            pollPath := getPaymentPath organization_id environment_id paymentId
            posts := 1
            gets := poll.2
            outcome := poll.1 }

/-- `sendPayment`: the send-direction analogue of `createPaymentRequest`. -/
def sendPayment (organization_id environment_id : String)
    (payment : Option SendPaymentRequestData) (fresh : String)
    (pollingConfig : Option PollingConfig)
    (script : Nat → GetOutcome) (getDur : Nat → Nat) : Except String PaymentRun :=
  if organization_id = "" ∨ environment_id = "" then
    .error ("organization_id and environment_id are required")
  else
    match payment with
    | none => .error ("payment data is required")
    | some pay =>
      let paymentId := jsOr pay.id fresh
      let config := mergePollingConfig pollingConfig
      let poll := pollForSendPayment script getDur config
      .ok { bodyId := paymentId
            postReq := ⟨"POST", paymentsPath organization_id environment_id⟩
            pollPath := getPaymentPath organization_id environment_id paymentId
            posts := 1
            gets := poll.2
            outcome := poll.1 }

/-- The requests a method whose model is `Except String Req` sends over the
transport: none when it fails validation. -/
def issuedRequests : Except String Req → List Req
  | .error _ => []
  | .ok r => [r]

/-- Same, for the two body-returning creation methods. -/
def issuedBodyRequests {β : Type} : Except String (Req × β) → List Req
  | .error _ => []
  | .ok rb => [rb.1]

/-- Number of transport calls of a polling run: none when validation fails,
otherwise the creation POST plus every poll GET. -/
def issuedRunCalls : Except String PaymentRun → Nat
  | .error _ => 0
  | .ok r => r.posts + r.gets

/-- The `VoltageClient` constructor's configuration check: with neither an
`apiKey` nor a `bearerToken` (both absent or empty, i.e. falsy) it throws
synchronously. -/
def voltageClientConstructor (apiKey bearerToken : String) : Except String Unit :=
  if apiKey = "" ∧ bearerToken = "" then
    .error ("Either apiKey or bearerToken must be provided")
  else .ok ()

/-- `HttpClient.getAuthHeaders`: the bearer token wins when truthy,
otherwise the API key when truthy, otherwise no auth header. -/
def getAuthHeaders (apiKey bearerToken : String) : List (String × String) :=
  if bearerToken ≠ "" then [("Authorization", "Bearer " ++ bearerToken)]
  else if apiKey ≠ "" then [("X-Api-Key", apiKey)]
  else []

/-- The headers of one request:
`{'Content-Type': 'application/json', ...authHeaders, ...headers}`.
Later entries override earlier ones on lookup, mirroring object spread. -/
def requestHeaders (apiKey bearerToken : String)
    (extra : List (String × String)) : List (String × String) :=
  [("Content-Type", "application/json")] ++ getAuthHeaders apiKey bearerToken ++ extra

/-- Right-biased header lookup (object spread: the last write to a key
wins). -/
def headerLookup (hs : List (String × String)) (k : String) : Option String :=
  hs.reverse.lookup k

/-- Minimal JSON values, for the parsed response body. -/
inductive Json where
  | null
  | bool (b : Bool)
  | num (n : Int)
  | str (s : String)
  | arr (elems : List Json)
  | obj (fields : List (String × Json))
deriving Repr, BEq

/-- `VoltageApiError` as constructed by the request executor for HTTP
errors: message (the payload's `message` value, of any JSON type, or the
synthesized fallback string), HTTP status, error code, and the full parsed
body as details. -/
structure VoltageApiError where
  message : Json
  status : Option Nat
  code : Option String
  details : Json

/-- `{data, status, statusText}` returned on success. -/
structure ApiResponse where
  data : Json
  status : Nat
  statusText : String

/-- The response-classification step of `HttpClient.request` after a
successful JSON parse: 2xx (`ok`) responses return the data; non-2xx
responses throw a `VoltageApiError` whose message prefers the payload's
`message` field (only objects can carry one) and otherwise is
`HTTP <status>: <statusText>`, with the parsed body attached as details. -/
def handleParsedResponse (ok : Bool) (status : Nat) (statusText : String)
    (data : Json) : Except VoltageApiError ApiResponse :=
  if ok then .ok ⟨data, status, statusText⟩
  else
    let errorMessage : Json :=
      match data with
      | .obj fields =>
        match fields.lookup ("message") with
        | some v => v
        | none => .str ("HTTP " ++ toString status ++ ": " ++ statusText)
      | _ => .str ("HTTP " ++ toString status ++ ": " ++ statusText)
    .error ⟨errorMessage, some status, some ("HTTP_ERROR"), data⟩

/-- A GET outcome that one poller iteration neither returns from nor
rethrows: the body falls through to the sleep, or throws a message the
`catch` clause swallows. -/
def retryStep (body : GetOutcome → TryResult) (rethrows : String → Bool)
    (o : GetOutcome) : Prop :=
  body o = .cont ∨ ∃ m, body o = .thrown m ∧ rethrows m = false

/-- Elapsed milliseconds at the timeout check of the `j`-th loop iteration:
each earlier iteration spent its GET's duration plus one full sleep. -/
def elapsedAt (getDur : Nat → Nat) (ivl : Nat) : Nat → Nat
  | 0 => 0
  | j + 1 => elapsedAt getDur ivl j + getDur j + ivl

/-- The query-string entries one filter entry contributes: none when
absent, one when scalar, one per element (in order) when array-valued. -/
def expandFilter : String × FilterValue → List (String × String)
  | (_, .missing) => []
  | (k, .scalar v) => [(k, v)]
  | (k, .many vs) => vs.map (fun v => (k, v))

/-- Scalar-only variant for `getWalletLedger`'s filters. -/
def expandScalarFilter : String × Option String → List (String × String)
  | (_, none) => []
  | (k, some v) => [(k, v)]

/-- Whether a parsed JSON body is an object carrying a `message` field. -/
def hasMessageField : Json → Bool
  | .obj fields => (fields.lookup ("message")).isSome
  | _ => false

/-- The id placed in the creation body of a payment run, if validation
passed. -/
def runBodyId : Except String PaymentRun → Option String
  | .error _ => none
  | .ok r => some r.bodyId

/-- The path every poll GET of a payment run targets, if validation
passed. -/
def runPollPath : Except String PaymentRun → Option String
  | .error _ => none
  | .ok r => some r.pollPath

/-- A resource method rejected with a validation error and issued no
request. -/
def rejectsWithoutRequest (x : Except String Req) (msg : String) : Prop :=
  x = .error msg ∧ issuedRequests x = []

/-- Same, for the body-returning creation methods. -/
def rejectsWithoutBodyRequest {β : Type} (x : Except String (Req × β)) (msg : String) : Prop :=
  x = .error msg ∧ issuedBodyRequests x = []

/-- Same, for the two polling operations (zero POSTs and zero GETs). -/
def rejectsWithoutRunCalls (x : Except String PaymentRun) (msg : String) : Prop :=
  x = .error msg ∧ issuedRunCalls x = 0

/-- Fixture: a send-direction payment stuck in its transient status. -/
def sendingPayment : Payment := ⟨"p1", "send", "sending", none, ""⟩

/-- Fixture: a receive payment still generating. -/
def generatingPayment : Payment := ⟨"p1", "receive", "generating", none, ""⟩

/-- Fixture: a ready receive payment. -/
def receivingPayment : Payment := ⟨"p1", "receive", "receiving", none, ""⟩

/-- Fixture: a failed receive payment with a structured error. -/
def failedPayment : Payment :=
  ⟨"p1", "receive", "failed", some ⟨"receive_failed", "Insufficient balance"⟩, ""⟩

/-- Fixture: every GET succeeds with the wrong-direction payment. -/
def mismatchScript : Nat → GetOutcome := fun _ => .success sendingPayment

/-- Fixture: every GET succeeds with a still-generating receive payment. -/
def generatingScript : Nat → GetOutcome := fun _ => .success generatingPayment

/-- Fixture: first GET still generating, second GET ready. -/
def roundTripScript : Nat → GetOutcome := fun k =>
  if k = 0 then .success generatingPayment else .success receivingPayment

/-- Fixture: the first GET reports the failed payment. -/
def failingScript : Nat → GetOutcome := fun _ => .success failedPayment

/-- Fixture: instantaneous GETs. -/
def zeroDur : Nat → Nat := fun _ => 0

/-! ### Helper lemmas -/

theorem leadsWith_self_append (p l : List Char) : leadsWith p (p ++ l) = true := by
  induction p with
  | nil => rfl
  | cons c p ih => simp [leadsWith, ih]

theorem occursIn_self_append (p l : List Char) : occursIn p (p ++ l) = true := by
  cases p with
  | nil => cases l <;> simp [occursIn, leadsWith]
  | cons c p =>
    simp only [occursIn, List.cons_append, Bool.or_eq_true]
    exact Or.inl (leadsWith_self_append (c :: p) l)

/-- A string includes any string it starts with. -/
theorem strIncludes_self_append (p rest : String) : strIncludes (p ++ rest) p = true := by
  unfold strIncludes
  have h : (p ++ rest).toList = p.toList ++ rest.toList := rfl
  rw [h]
  exact occursIn_self_append _ _

/-- Every failure message the receive poller synthesizes is re-thrown by its
own `catch` clause. -/
theorem receiveCatchRethrows_failureMessage (e : Option PaymentError) :
    receiveCatchRethrows (receiveFailureMessage e) = true := by
  cases e with
  | none => decide
  | some err =>
    simp only [receiveFailureMessage]
    by_cases h1 : err.type = "receive_failed"
    · rw [if_pos h1]
      have h : ("Payment generation failed: " ++ err.detail) =
          ("Payment generation failed" ++ (": " ++ err.detail)) := by
        rw [← String.append_assoc]; rfl
      unfold receiveCatchRethrows
      rw [h, strIncludes_self_append]
      simp
    · rw [if_neg h1]
      by_cases h2 : err.type = "expired"
      · rw [if_pos h2]; decide
      · rw [if_neg h2]; decide

/-- Every failure message the send poller synthesizes is re-thrown by its
own `catch` clause. -/
theorem sendCatchRethrows_failureMessage (e : Option PaymentError) :
    sendCatchRethrows (sendFailureMessage e) = true := by
  cases e with
  | none => decide
  | some err =>
    simp only [sendFailureMessage]
    have h : ("Send payment failed: " ++ err.detail) =
        ("Send payment failed" ++ (": " ++ err.detail)) := by
      rw [← String.append_assoc]; rfl
    unfold sendCatchRethrows
    rw [h, strIncludes_self_append]
    simp

theorem pollLoopAux_zero {body : GetOutcome → TryResult} {rethrows : String → Bool}
    {tm em : String} {script : Nat → GetOutcome} {getDur : Nat → Nat}
    {cfg : RequiredPollingConfig} {k t : Nat} :
    pollLoopAux body rethrows tm em script getDur cfg 0 k t = (.rejected em, k) := rfl

theorem pollLoopAux_timeout {body : GetOutcome → TryResult} {rethrows : String → Bool}
    {tm em : String} {script : Nat → GetOutcome} {getDur : Nat → Nat}
    {cfg : RequiredPollingConfig} {r k t : Nat} (h : cfg.timeoutMs < t) :
    pollLoopAux body rethrows tm em script getDur cfg (r + 1) k t = (.rejected tm, k) := by
  simp [pollLoopAux, h]

theorem pollLoopAux_ret {body : GetOutcome → TryResult} {rethrows : String → Bool}
    {tm em : String} {script : Nat → GetOutcome} {getDur : Nat → Nat}
    {cfg : RequiredPollingConfig} {r k t : Nat} {p : Payment}
    (ht : ¬ cfg.timeoutMs < t) (hb : body (script k) = .ret p) :
    pollLoopAux body rethrows tm em script getDur cfg (r + 1) k t = (.resolved p, k + 1) := by
  simp [pollLoopAux, ht, hb]

theorem pollLoopAux_rethrow {body : GetOutcome → TryResult} {rethrows : String → Bool}
    {tm em : String} {script : Nat → GetOutcome} {getDur : Nat → Nat}
    {cfg : RequiredPollingConfig} {r k t : Nat} {m : String}
    (ht : ¬ cfg.timeoutMs < t) (hb : body (script k) = .thrown m) (hm : rethrows m = true) :
    pollLoopAux body rethrows tm em script getDur cfg (r + 1) k t = (.rejected m, k + 1) := by
  simp [pollLoopAux, ht, hb, hm]

theorem pollLoopAux_retry {body : GetOutcome → TryResult} {rethrows : String → Bool}
    {tm em : String} {script : Nat → GetOutcome} {getDur : Nat → Nat}
    {cfg : RequiredPollingConfig} {r k t : Nat}
    (ht : ¬ cfg.timeoutMs < t) (hr : retryStep body rethrows (script k)) :
    pollLoopAux body rethrows tm em script getDur cfg (r + 1) k t =
      pollLoopAux body rethrows tm em script getDur cfg r (k + 1)
        (t + getDur k + cfg.intervalMs) := by
  rcases hr with hc | ⟨m, hm, hf⟩
  · simp [pollLoopAux, ht, hc]
  · simp [pollLoopAux, ht, hm, hf]

/-- When every GET retries, the loop ends in one of the poller's own
timeout / exhaustion rejections after at most the remaining number of
attempts. -/
theorem pollLoopAux_all_retry {body : GetOutcome → TryResult} {rethrows : String → Bool}
    {tm em : String} {script : Nat → GetOutcome} {getDur : Nat → Nat}
    {cfg : RequiredPollingConfig}
    (h : ∀ j, retryStep body rethrows (script j)) :
    ∀ r k t,
      ((pollLoopAux body rethrows tm em script getDur cfg r k t).1 = .rejected tm ∨
        (pollLoopAux body rethrows tm em script getDur cfg r k t).1 = .rejected em) ∧
      (pollLoopAux body rethrows tm em script getDur cfg r k t).2 ≤ k + r := by
  intro r
  induction r with
  | zero => intro k t; simp [pollLoopAux_zero]
  | succ n ih =>
    intro k t
    by_cases ht : cfg.timeoutMs < t
    · rw [pollLoopAux_timeout ht]
      simp
    · rw [pollLoopAux_retry ht (h k)]
      rcases ih (k + 1) (t + getDur k + cfg.intervalMs) with ⟨ho, hc⟩
      exact ⟨ho, by omega⟩

/-- Skipping `n` retrying iterations from the initial state lands at attempt
index `n` with the accumulated elapsed time. -/
theorem pollLoopAux_skip {body : GetOutcome → TryResult} {rethrows : String → Bool}
    {tm em : String} {script : Nat → GetOutcome} {getDur : Nat → Nat}
    {cfg : RequiredPollingConfig} :
    ∀ n r : Nat,
      (∀ j, j < n → retryStep body rethrows (script j)) →
      (∀ j, j < n → elapsedAt getDur cfg.intervalMs j ≤ cfg.timeoutMs) →
      pollLoopAux body rethrows tm em script getDur cfg (n + r) 0 0 =
        pollLoopAux body rethrows tm em script getDur cfg r n
          (elapsedAt getDur cfg.intervalMs n) := by
  intro n
  induction n with
  | zero =>
    intro r _ _
    rw [Nat.zero_add]
    rfl
  | succ m ih =>
    intro r hr ht
    rw [show m + 1 + r = m + (r + 1) by omega]
    rw [ih (r + 1) (fun j hj => hr j (by omega)) (fun j hj => ht j (by omega))]
    rw [pollLoopAux_retry (Nat.not_lt.mpr (ht m (by omega))) (hr m (by omega))]
    rfl

/-! ### Claim theorems -/

/-- C8: constructing the client with neither an apiKey nor a bearerToken
throws synchronously with the configuration error; constructing it with
either credential alone succeeds. -/
theorem constructor_credential_validation :
    voltageClientConstructor "" "" = .error ("Either apiKey or bearerToken must be provided") ∧
    (∀ k : String, k ≠ "" → voltageClientConstructor k "" = .ok ()) ∧
    (∀ t : String, t ≠ "" → voltageClientConstructor "" t = .ok ()) := by
  refine ⟨rfl, ?_, ?_⟩
  · intro k hk
    simp [voltageClientConstructor, hk]
  · intro t ht
    simp [voltageClientConstructor, ht]

/-- Witness for C8 at concrete credentials. -/
theorem constructor_credential_validation_witness :
    voltageClientConstructor "apiKey123" "" = .ok () ∧
    voltageClientConstructor "" "token456" = .ok () :=
  ⟨constructor_credential_validation.2.1 ("apiKey123") (by decide),
   constructor_credential_validation.2.2 ("token456") (by decide)⟩

/-- C10: when both credentials are configured, the auth headers consist of
exactly the bearer `Authorization` header; the outgoing request headers
carry no `X-Api-Key` entry and do carry the bearer token. -/
theorem bearer_token_precedence :
    ∀ apiKey bearerToken : String, bearerToken ≠ "" →
      getAuthHeaders apiKey bearerToken = [("Authorization", "Bearer " ++ bearerToken)] ∧
      headerLookup (requestHeaders apiKey bearerToken []) ("X-Api-Key") = none ∧
      headerLookup (requestHeaders apiKey bearerToken []) ("Authorization") =
        some ("Bearer " ++ bearerToken) := by
  intro k t ht
  have hauth : getAuthHeaders k t = [("Authorization", "Bearer " ++ t)] := by
    simp [getAuthHeaders, ht]
  have hreq : requestHeaders k t [] =
      [("Content-Type", "application/json"), ("Authorization", "Bearer " ++ t)] := by
    simp [requestHeaders, hauth]
  refine ⟨hauth, ?_, ?_⟩ <;> rw [hreq] <;> rfl

/-- Witness for C10 with both credentials supplied. -/
theorem bearer_token_precedence_witness :
    getAuthHeaders ("key1") ("tok1") = [("Authorization", "Bearer tok1")] ∧
    headerLookup (requestHeaders ("key1") ("tok1") []) ("X-Api-Key") = none ∧
    headerLookup (requestHeaders ("key1") ("tok1") []) ("Authorization") =
      some ("Bearer tok1") :=
  bearer_token_precedence ("key1") ("tok1") (by decide)

/-- C6: a non-2xx response whose body parsed as JSON yields an HTTP-coded
error whose message is the payload's `message` field when the payload is an
object carrying one, and the generic `HTTP <status>: <statusText>` string
otherwise; the parsed body is attached as details. -/
theorem http_error_classification :
    (∀ (status : Nat) (statusText : String) (fields : List (String × Json)) (v : Json),
      fields.lookup ("message") = some v →
      handleParsedResponse false status statusText (.obj fields) =
        .error ⟨v, some status, some ("HTTP_ERROR"), .obj fields⟩) ∧
    (∀ (status : Nat) (statusText : String) (data : Json),
      hasMessageField data = false →
      handleParsedResponse false status statusText data =
        .error ⟨.str ("HTTP " ++ toString status ++ ": " ++ statusText),
                some status, some ("HTTP_ERROR"), data⟩) := by
  constructor
  · intro status st fields v hv
    simp [handleParsedResponse, hv]
  · intro status st data hd
    cases data with
    | obj fields =>
      have hnone : fields.lookup ("message") = none := by
        simpa [hasMessageField, Option.isSome_iff_exists] using hd
      simp [handleParsedResponse, hnone]
    | null => simp [handleParsedResponse]
    | bool b => simp [handleParsedResponse]
    | num n => simp [handleParsedResponse]
    | str s => simp [handleParsedResponse]
    | arr xs => simp [handleParsedResponse]

/-- Witness for C6 at the spec's example payload. -/
theorem http_error_classification_witness :
    handleParsedResponse false 404 ("Not Found")
        (.obj [("message", .str ("Organization not found"))]) =
      .error ⟨.str ("Organization not found"), some 404, some ("HTTP_ERROR"),
              .obj [("message", .str ("Organization not found"))]⟩ :=
  http_error_classification.1 404 ("Not Found") [("message", .str ("Organization not found"))]
    (.str ("Organization not found")) rfl

/-- C2 counterexample: `createWallet` does not auto-generate a wallet id —
a wallet payload whose optional id is omitted is POSTed unchanged, with no
identifier in the outgoing body (there is no `crypto.randomUUID()` call in
`createWallet`, unlike `createPaymentRequest`, `sendPayment` and
`createWebhook`). -/
theorem createWallet_no_auto_id_cex :
    createWallet ("org1") (some ⟨none, "walletpayload"⟩) =
      .ok (⟨"POST", "/organizations/org1/wallets"⟩,
           { id := none, rest := "walletpayload" }) := rfl

/-- C2 amended: `createPaymentRequest`, `sendPayment` and `createWebhook`
place a freshly generated id in the outgoing body when the caller omits one
and send a caller-supplied id unchanged, and both payment pollers target
exactly that body id; `createWallet` sends the wallet payload unchanged
with no id auto-generation. -/
theorem auto_id_generation_payments_webhooks_not_wallets :
    (∀ (org env rest fresh : String) (pcfg : Option PollingConfig)
        (script : Nat → GetOutcome) (getDur : Nat → Nat),
      org ≠ "" → env ≠ "" →
      runBodyId (createPaymentRequest org env (some ⟨none, rest⟩) fresh pcfg script getDur) =
        some fresh ∧
      runPollPath (createPaymentRequest org env (some ⟨none, rest⟩) fresh pcfg script getDur) =
        some (getPaymentPath org env fresh)) ∧
    (∀ (org env rest fresh g : String) (pcfg : Option PollingConfig)
        (script : Nat → GetOutcome) (getDur : Nat → Nat),
      org ≠ "" → env ≠ "" → g ≠ "" →
      runBodyId (createPaymentRequest org env (some ⟨some g, rest⟩) fresh pcfg script getDur) =
        some g ∧
      runPollPath (createPaymentRequest org env (some ⟨some g, rest⟩) fresh pcfg script getDur) =
        some (getPaymentPath org env g)) ∧
    (∀ (org env rest fresh : String) (pcfg : Option PollingConfig)
        (script : Nat → GetOutcome) (getDur : Nat → Nat),
      org ≠ "" → env ≠ "" →
      runBodyId (sendPayment org env (some ⟨none, rest⟩) fresh pcfg script getDur) =
        some fresh ∧
      runPollPath (sendPayment org env (some ⟨none, rest⟩) fresh pcfg script getDur) =
        some (getPaymentPath org env fresh)) ∧
    (∀ (org env rest fresh g : String) (pcfg : Option PollingConfig)
        (script : Nat → GetOutcome) (getDur : Nat → Nat),
      org ≠ "" → env ≠ "" → g ≠ "" →
      runBodyId (sendPayment org env (some ⟨some g, rest⟩) fresh pcfg script getDur) =
        some g ∧
      runPollPath (sendPayment org env (some ⟨some g, rest⟩) fresh pcfg script getDur) =
        some (getPaymentPath org env g)) ∧
    (∀ org env rest fresh : String, org ≠ "" → env ≠ "" →
      createWebhook org env (some ⟨none, rest⟩) fresh =
        .ok (⟨"POST", webhooksPath org env⟩, { id := some fresh, rest := rest })) ∧
    (∀ org env rest fresh g : String, org ≠ "" → env ≠ "" → g ≠ "" →
      createWebhook org env (some ⟨some g, rest⟩) fresh =
        .ok (⟨"POST", webhooksPath org env⟩, { id := some g, rest := rest })) ∧
    (∀ (org : String) (w : NewWalletRequest), org ≠ "" →
      createWallet org (some w) = .ok (⟨"POST", walletsPath org⟩, w)) := by
  refine ⟨?_, ?_, ?_, ?_, ?_, ?_, ?_⟩
  · intro org env rest fresh pcfg script getDur horg henv
    constructor <;> simp [createPaymentRequest, runBodyId, runPollPath, jsOr, horg, henv]
  · intro org env rest fresh g pcfg script getDur horg henv hg
    constructor <;> simp [createPaymentRequest, runBodyId, runPollPath, jsOr, horg, henv, hg]
  · intro org env rest fresh pcfg script getDur horg henv
    constructor <;> simp [sendPayment, runBodyId, runPollPath, jsOr, horg, henv]
  · intro org env rest fresh g pcfg script getDur horg henv hg
    constructor <;> simp [sendPayment, runBodyId, runPollPath, jsOr, horg, henv, hg]
  · intro org env rest fresh horg henv
    simp [createWebhook, jsOr, horg, henv]
  · intro org env rest fresh g horg henv hg
    simp [createWebhook, jsOr, horg, henv, hg]
  · intro org w horg
    simp [createWallet, horg]

/-- Witness for C2's amended statement at a concrete omitted-id payment. -/
theorem auto_id_generation_witness :
    runBodyId (createPaymentRequest "o" "e" (some ⟨none, "pay"⟩) ("uuid-1") none
        generatingScript zeroDur) = some ("uuid-1") ∧
    runPollPath (createPaymentRequest "o" "e" (some ⟨none, "pay"⟩) ("uuid-1") none
        generatingScript zeroDur) = some (getPaymentPath "o" "e" ("uuid-1")) :=
  auto_id_generation_payments_webhooks_not_wallets.1 "o" "e" "pay" ("uuid-1") none
    generatingScript zeroDur (by decide) (by decide)

/-- C1 counterexample: polling a receive payment that every GET reports with
direction `send` does not fail immediately with the direction-mismatch
error — with `maxAttempts = 2` the poller performs a second GET and finally
rejects with the exhausted-attempts error, because the mismatch error
thrown inside the `try` block is swallowed by the `catch` clause's
retry-on-other-errors branch. -/
theorem pollForPayment_mismatch_retried_cex :
    pollForPayment mismatchScript zeroDur ⟨2, 0, 1000⟩ =
      (.rejected ("Payment polling failed after 2 attempts"), 2) := rfl

/-- C1 amended: a fetched payment of mismatched direction is treated like a
transient GET failure — the mismatch error is swallowed and the poller
sleeps and retries; when every fetch has a mismatched direction, the run
ends with the poller's own timeout or exhausted-attempts rejection after at
most `maxAttempts` GETs, for both the receive and the send variant. -/
theorem poll_direction_mismatch_swallowed_and_retried :
    (∀ (cfg : RequiredPollingConfig) (script : Nat → GetOutcome) (getDur : Nat → Nat),
      (∀ j, ∃ p, script j = .success p ∧ p.direction ≠ "receive") →
      ((pollForPayment script getDur cfg).1 = .rejected (pollTimeoutMessage cfg) ∨
        (pollForPayment script getDur cfg).1 = .rejected (pollExhaustMessage cfg)) ∧
      (pollForPayment script getDur cfg).2 ≤ cfg.maxAttempts) ∧
    (∀ (cfg : RequiredPollingConfig) (script : Nat → GetOutcome) (getDur : Nat → Nat),
      (∀ j, ∃ p, script j = .success p ∧ p.direction ≠ "send") →
      ((pollForSendPayment script getDur cfg).1 = .rejected (sendPollTimeoutMessage cfg) ∨
        (pollForSendPayment script getDur cfg).1 = .rejected (sendPollExhaustMessage cfg)) ∧
      (pollForSendPayment script getDur cfg).2 ≤ cfg.maxAttempts) := by
  constructor
  · intro cfg script getDur h
    have h' : ∀ j, retryStep receiveTryBody receiveCatchRethrows (script j) := by
      intro j
      obtain ⟨p, hp, hd⟩ := h j
      exact Or.inr ⟨"Expected receive payment but got send payment",
        by rw [hp]; simp [receiveTryBody, hd], by decide⟩
    have h2 := @pollLoopAux_all_retry receiveTryBody receiveCatchRethrows
      (pollTimeoutMessage cfg) (pollExhaustMessage cfg) script getDur cfg h'
      cfg.maxAttempts 0 0
    rw [Nat.zero_add] at h2
    exact h2
  · intro cfg script getDur h
    have h' : ∀ j, retryStep sendTryBody sendCatchRethrows (script j) := by
      intro j
      obtain ⟨p, hp, hd⟩ := h j
      exact Or.inr ⟨"Expected send payment but got receive payment",
        by rw [hp]; simp [sendTryBody, hd], by decide⟩
    have h2 := @pollLoopAux_all_retry sendTryBody sendCatchRethrows
      (sendPollTimeoutMessage cfg) (sendPollExhaustMessage cfg) script getDur cfg h'
      cfg.maxAttempts 0 0
    rw [Nat.zero_add] at h2
    exact h2

/-- Witness for C1's amended statement at the counterexample scenario. -/
theorem poll_direction_mismatch_swallowed_witness :
    ((pollForPayment mismatchScript zeroDur ⟨2, 0, 1000⟩).1 =
        .rejected (pollTimeoutMessage ⟨2, 0, 1000⟩) ∨
      (pollForPayment mismatchScript zeroDur ⟨2, 0, 1000⟩).1 =
        .rejected (pollExhaustMessage ⟨2, 0, 1000⟩)) ∧
    (pollForPayment mismatchScript zeroDur ⟨2, 0, 1000⟩).2 ≤ 2 :=
  poll_direction_mismatch_swallowed_and_retried.1 ⟨2, 0, 1000⟩ mismatchScript zeroDur
    (fun _ => ⟨sendingPayment, rfl, by decide⟩)

/-- C5 counterexample: a run whose every GET observes only the transient
status need not reject with a message naming the attempt limit — with
`maxAttempts 2, intervalMs 100, timeoutMs 50` the wall-clock deadline fires
first and the rejection message names the timeout, not the attempt count. -/
theorem poll_exhaustion_timeout_message_cex :
    pollForPayment generatingScript zeroDur ⟨2, 100, 50⟩ =
      (.rejected ("Payment polling timed out after 50ms"), 1) ∧
    strIncludes ("Payment polling timed out after 50ms") ("2 attempts") = false :=
  ⟨rfl, by decide⟩

/-- C5 amended: when every GET observes the transient status or a retryable
failure, the receive poller performs at most `maxAttempts` GETs and rejects
with either the exhausted-attempts error naming the limit or (when the
wall-clock deadline is exceeded first) the timeout error naming
`timeoutMs`; in the claim's `maxAttempts 2, intervalMs 100, timeoutMs 150`
scenario with instantaneous GETs it rejects citing `2 attempts` after
exactly 2 GETs. -/
theorem poll_bounded_attempts_and_exhaustion :
    (∀ (cfg : RequiredPollingConfig) (script : Nat → GetOutcome) (getDur : Nat → Nat),
      (∀ j, (∃ p, script j = .success p ∧ p.direction = "receive" ∧ p.status = "generating") ∨
        (∃ m, script j = .failure m ∧ receiveCatchRethrows m = false)) →
      ((pollForPayment script getDur cfg).1 = .rejected (pollTimeoutMessage cfg) ∨
        (pollForPayment script getDur cfg).1 = .rejected (pollExhaustMessage cfg)) ∧
      (pollForPayment script getDur cfg).2 ≤ cfg.maxAttempts) ∧
    pollForPayment generatingScript zeroDur ⟨2, 100, 150⟩ =
      (.rejected ("Payment polling failed after 2 attempts"), 2) ∧
    strIncludes ("Payment polling failed after 2 attempts") ("2 attempts") = true := by
  refine ⟨?_, rfl, by decide⟩
  intro cfg script getDur h
  have h' : ∀ j, retryStep receiveTryBody receiveCatchRethrows (script j) := by
    intro j
    rcases h j with ⟨p, hp, hd, hs⟩ | ⟨m, hm, hf⟩
    · exact Or.inl (by rw [hp]; simp [receiveTryBody, hd, hs])
    · exact Or.inr ⟨m, by rw [hm]; rfl, hf⟩
  have h2 := @pollLoopAux_all_retry receiveTryBody receiveCatchRethrows
    (pollTimeoutMessage cfg) (pollExhaustMessage cfg) script getDur cfg h'
    cfg.maxAttempts 0 0
  rw [Nat.zero_add] at h2
  exact h2

/-- Witness for C5's amended statement at the claim's configuration. -/
theorem poll_bounded_attempts_witness :
    ((pollForPayment generatingScript zeroDur ⟨2, 100, 150⟩).1 =
        .rejected (pollTimeoutMessage ⟨2, 100, 150⟩) ∨
      (pollForPayment generatingScript zeroDur ⟨2, 100, 150⟩).1 =
        .rejected (pollExhaustMessage ⟨2, 100, 150⟩)) ∧
    (pollForPayment generatingScript zeroDur ⟨2, 100, 150⟩).2 ≤ 2 :=
  poll_bounded_attempts_and_exhaustion.1 ⟨2, 100, 150⟩ generatingScript zeroDur
    (fun _ => Or.inl ⟨generatingPayment, rfl, by decide, by decide⟩)

/-- C3: when the creation POST succeeds, the first GET returns a receive
payment still `generating` and the second GET returns a receive payment
with a terminal non-failure status, `createPaymentRequest` resolves with
exactly the second GET's payment after exactly 1 creation POST and exactly
2 GETs (the hypotheses on the merged configuration make the second GET
reachable: at least two attempts and a deadline not yet exceeded at the
second check). -/
theorem createPaymentRequest_round_trip
    (org env rest fresh : String) (payId : Option String) (pcfg : Option PollingConfig)
    (script : Nat → GetOutcome) (getDur : Nat → Nat) (p1 p2 : Payment)
    (horg : org ≠ "") (henv : env ≠ "")
    (h0 : script 0 = .success p1) (h1 : script 1 = .success p2)
    (hd1 : p1.direction = "receive") (hs1 : p1.status = "generating")
    (hd2 : p2.direction = "receive") (hs2 : p2.status ≠ "generating")
    (hf2 : p2.status ≠ "failed")
    (hmax : 2 ≤ (mergePollingConfig pcfg).maxAttempts)
    (htime : getDur 0 + (mergePollingConfig pcfg).intervalMs ≤ (mergePollingConfig pcfg).timeoutMs) :
    createPaymentRequest org env (some ⟨payId, rest⟩) fresh pcfg script getDur =
      .ok { bodyId := jsOr payId fresh
            postReq := ⟨"POST", paymentsPath org env⟩
            pollPath := getPaymentPath org env (jsOr payId fresh)
            posts := 1
            gets := 2
            outcome := .resolved p2 } := by
  have hpoll : pollForPayment script getDur (mergePollingConfig pcfg) = (.resolved p2, 2) := by
    obtain ⟨m, hm⟩ : ∃ m, (mergePollingConfig pcfg).maxAttempts = m + 1 + 1 :=
      ⟨(mergePollingConfig pcfg).maxAttempts - 2, by omega⟩
    unfold pollForPayment
    rw [hm]
    rw [pollLoopAux_retry (Nat.not_lt_zero _)
      (Or.inl (by rw [h0]; simp [receiveTryBody, hd1, hs1]))]
    simp only [Nat.zero_add]
    have hb1 : receiveTryBody (script 1) = .ret p2 := by
      rw [h1]
      simp [receiveTryBody, hd2, hs2, hf2]
    rw [pollLoopAux_ret (Nat.not_lt.mpr htime) hb1]
  simp [createPaymentRequest, horg, henv, hpoll]

/-- Witness for C3 at a concrete two-step script under the default
configuration. -/
theorem createPaymentRequest_round_trip_witness :
    createPaymentRequest "o" "e" (some ⟨none, "r"⟩) "f" none roundTripScript zeroDur =
      .ok { bodyId := "f"
            postReq := ⟨"POST", paymentsPath "o" "e"⟩
            pollPath := getPaymentPath "o" "e" "f"
            posts := 1
            gets := 2
            outcome := .resolved receivingPayment } :=
  createPaymentRequest_round_trip "o" "e" "r" "f" none none roundTripScript zeroDur
    generatingPayment receivingPayment (by decide) (by decide) rfl rfl rfl rfl rfl
    (by decide) (by decide) (by decide) (by decide)

/-- C4: whenever the poller actually fetches a payment of the expected
direction whose status is `failed` (at attempt index `k`, with every
earlier attempt a retrying one and the deadline not yet exceeded), it
rejects immediately with the message synthesized from the structured error
payload and performs no GET after that response — the total GET count is
`k + 1`; the synthesized messages are the claimed ones for both poller
variants. -/
theorem poll_failed_status_rejects_immediately :
    (∀ (cfg : RequiredPollingConfig) (script : Nat → GetOutcome) (getDur : Nat → Nat)
        (k : Nat) (p : Payment),
      k < cfg.maxAttempts →
      (∀ j, j < k → retryStep receiveTryBody receiveCatchRethrows (script j)) →
      (∀ j, j ≤ k → elapsedAt getDur cfg.intervalMs j ≤ cfg.timeoutMs) →
      script k = .success p → p.direction = "receive" → p.status = "failed" →
      pollForPayment script getDur cfg =
        (.rejected (receiveFailureMessage p.error), k + 1)) ∧
    (∀ d : String, receiveFailureMessage (some ⟨"receive_failed", d⟩) =
      "Payment generation failed: " ++ d) ∧
    (∀ d : String, receiveFailureMessage (some ⟨"expired", d⟩) =
      "Payment generation failed: Payment expired") ∧
    (∀ (cfg : RequiredPollingConfig) (script : Nat → GetOutcome) (getDur : Nat → Nat)
        (k : Nat) (p : Payment),
      k < cfg.maxAttempts →
      (∀ j, j < k → retryStep sendTryBody sendCatchRethrows (script j)) →
      (∀ j, j ≤ k → elapsedAt getDur cfg.intervalMs j ≤ cfg.timeoutMs) →
      script k = .success p → p.direction = "send" → p.status = "failed" →
      pollForSendPayment script getDur cfg =
        (.rejected (sendFailureMessage p.error), k + 1)) ∧
    (∀ (ty d : String), sendFailureMessage (some ⟨ty, d⟩) = "Send payment failed: " ++ d) := by
  refine ⟨?_, fun d => rfl, fun d => rfl, ?_, fun ty d => rfl⟩
  · intro cfg script getDur k p hk hprev ht hp hd hs
    obtain ⟨r, hr⟩ : ∃ r, cfg.maxAttempts = k + (r + 1) := ⟨cfg.maxAttempts - k - 1, by omega⟩
    unfold pollForPayment
    rw [hr]
    rw [pollLoopAux_skip k (r + 1) hprev (fun j hj => ht j (by omega))]
    exact pollLoopAux_rethrow (Nat.not_lt.mpr (ht k (Nat.le_refl k)))
      (by rw [hp]; simp [receiveTryBody, hd, hs])
      (receiveCatchRethrows_failureMessage p.error)
  · intro cfg script getDur k p hk hprev ht hp hd hs
    obtain ⟨r, hr⟩ : ∃ r, cfg.maxAttempts = k + (r + 1) := ⟨cfg.maxAttempts - k - 1, by omega⟩
    unfold pollForSendPayment
    rw [hr]
    rw [pollLoopAux_skip k (r + 1) hprev (fun j hj => ht j (by omega))]
    exact pollLoopAux_rethrow (Nat.not_lt.mpr (ht k (Nat.le_refl k)))
      (by rw [hp]; simp [sendTryBody, hd, hs])
      (sendCatchRethrows_failureMessage p.error)

/-- Witness for C4 at the spec's `receive_failed / Insufficient balance`
example, observed on the first GET under the default configuration. -/
theorem poll_failed_status_witness :
    pollForPayment failingScript zeroDur DEFAULT_POLLING_CONFIG =
      (.rejected ("Payment generation failed: Insufficient balance"), 1) :=
  poll_failed_status_rejects_immediately.1 DEFAULT_POLLING_CONFIG failingScript zeroDur 0
    failedPayment (by decide) (fun j hj => absurd hj (Nat.not_lt_zero j))
    (fun j hj => by
      have hj0 : j = 0 := Nat.le_zero.mp hj
      rw [hj0]
      decide)
    rfl rfl rfl

/-- C7: every resource method, for every way of omitting a required
identifier (empty string models both a missing and an empty id), rejects
with the validation error naming the required field(s) and issues no
transport request. -/
theorem resource_methods_validate_before_network :
    rejectsWithoutRequest (getWallets "") ("organization_id is required") ∧
    (∀ w : String, rejectsWithoutRequest (getWallet "" w)
      ("organization_id and wallet_id are required")) ∧
    (∀ o : String, rejectsWithoutRequest (getWallet o "")
      ("organization_id and wallet_id are required")) ∧
    (∀ w : Option NewWalletRequest, rejectsWithoutBodyRequest (createWallet "" w)
      ("organization_id is required")) ∧
    (∀ w : String, rejectsWithoutRequest (deleteWallet "" w)
      ("organization_id and wallet_id are required")) ∧
    (∀ o : String, rejectsWithoutRequest (deleteWallet o "")
      ("organization_id and wallet_id are required")) ∧
    (∀ (env fresh : String) (pay : Option ReceivePaymentRequest) (pcfg : Option PollingConfig)
        (script : Nat → GetOutcome) (getDur : Nat → Nat),
      rejectsWithoutRunCalls (createPaymentRequest "" env pay fresh pcfg script getDur)
        ("organization_id and environment_id are required")) ∧
    (∀ (org fresh : String) (pay : Option ReceivePaymentRequest) (pcfg : Option PollingConfig)
        (script : Nat → GetOutcome) (getDur : Nat → Nat),
      rejectsWithoutRunCalls (createPaymentRequest org "" pay fresh pcfg script getDur)
        ("organization_id and environment_id are required")) ∧
    (∀ e p : String, rejectsWithoutRequest (getPayment "" e p)
      ("organization_id, environment_id, and payment_id are required")) ∧
    (∀ o p : String, rejectsWithoutRequest (getPayment o "" p)
      ("organization_id, environment_id, and payment_id are required")) ∧
    (∀ o e : String, rejectsWithoutRequest (getPayment o e "")
      ("organization_id, environment_id, and payment_id are required")) ∧
    (∀ (env : String) (filters : List (String × FilterValue)),
      rejectsWithoutRequest (getPayments "" env filters)
        ("organization_id and environment_id are required")) ∧
    (∀ (org : String) (filters : List (String × FilterValue)),
      rejectsWithoutRequest (getPayments org "" filters)
        ("organization_id and environment_id are required")) ∧
    (∀ (env fresh : String) (pay : Option SendPaymentRequestData) (pcfg : Option PollingConfig)
        (script : Nat → GetOutcome) (getDur : Nat → Nat),
      rejectsWithoutRunCalls (sendPayment "" env pay fresh pcfg script getDur)
        ("organization_id and environment_id are required")) ∧
    (∀ (org fresh : String) (pay : Option SendPaymentRequestData) (pcfg : Option PollingConfig)
        (script : Nat → GetOutcome) (getDur : Nat → Nat),
      rejectsWithoutRunCalls (sendPayment org "" pay fresh pcfg script getDur)
        ("organization_id and environment_id are required")) ∧
    (∀ (w : String) (filters : List (String × Option String)),
      rejectsWithoutRequest (getWalletLedger "" w filters)
        ("organization_id and wallet_id are required")) ∧
    (∀ (o : String) (filters : List (String × Option String)),
      rejectsWithoutRequest (getWalletLedger o "" filters)
        ("organization_id and wallet_id are required")) ∧
    (∀ e p : String, rejectsWithoutRequest (getPaymentHistory "" e p)
      ("organization_id, environment_id, and payment_id are required")) ∧
    (∀ o p : String, rejectsWithoutRequest (getPaymentHistory o "" p)
      ("organization_id, environment_id, and payment_id are required")) ∧
    (∀ o e : String, rejectsWithoutRequest (getPaymentHistory o e "")
      ("organization_id, environment_id, and payment_id are required")) ∧
    (∀ l : String, rejectsWithoutRequest (getLineOfCredit "" l)
      ("organization_id and line_id are required")) ∧
    (∀ o : String, rejectsWithoutRequest (getLineOfCredit o "")
      ("organization_id and line_id are required")) ∧
    rejectsWithoutRequest (getLinesOfCredit "") ("organization_id is required") ∧
    (∀ filters : List (String × FilterValue), rejectsWithoutRequest (getWebhooks "" filters)
      ("organization_id is required")) ∧
    (∀ e w : String, rejectsWithoutRequest (getWebhook "" e w)
      ("organization_id, environment_id, and webhook_id are required")) ∧
    (∀ o w : String, rejectsWithoutRequest (getWebhook o "" w)
      ("organization_id, environment_id, and webhook_id are required")) ∧
    (∀ o e : String, rejectsWithoutRequest (getWebhook o e "")
      ("organization_id, environment_id, and webhook_id are required")) ∧
    (∀ (env fresh : String) (wh : Option NewWebhookRequest),
      rejectsWithoutBodyRequest (createWebhook "" env wh fresh)
        ("organization_id and environment_id are required")) ∧
    (∀ (org fresh : String) (wh : Option NewWebhookRequest),
      rejectsWithoutBodyRequest (createWebhook org "" wh fresh)
        ("organization_id and environment_id are required")) ∧
    (∀ (e w : String) (wh : Option String), rejectsWithoutRequest (updateWebhook "" e w wh)
      ("organization_id, environment_id, and webhook_id are required")) ∧
    (∀ (o w : String) (wh : Option String), rejectsWithoutRequest (updateWebhook o "" w wh)
      ("organization_id, environment_id, and webhook_id are required")) ∧
    (∀ (o e : String) (wh : Option String), rejectsWithoutRequest (updateWebhook o e "" wh)
      ("organization_id, environment_id, and webhook_id are required")) ∧
    (∀ e w : String, rejectsWithoutRequest (deleteWebhook "" e w)
      ("organization_id, environment_id, and webhook_id are required")) ∧
    (∀ o w : String, rejectsWithoutRequest (deleteWebhook o "" w)
      ("organization_id, environment_id, and webhook_id are required")) ∧
    (∀ o e : String, rejectsWithoutRequest (deleteWebhook o e "")
      ("organization_id, environment_id, and webhook_id are required")) ∧
    (∀ e w : String, rejectsWithoutRequest (startWebhook "" e w)
      ("organization_id, environment_id, and webhook_id are required")) ∧
    (∀ o w : String, rejectsWithoutRequest (startWebhook o "" w)
      ("organization_id, environment_id, and webhook_id are required")) ∧
    (∀ o e : String, rejectsWithoutRequest (startWebhook o e "")
      ("organization_id, environment_id, and webhook_id are required")) ∧
    (∀ e w : String, rejectsWithoutRequest (stopWebhook "" e w)
      ("organization_id, environment_id, and webhook_id are required")) ∧
    (∀ o w : String, rejectsWithoutRequest (stopWebhook o "" w)
      ("organization_id, environment_id, and webhook_id are required")) ∧
    (∀ o e : String, rejectsWithoutRequest (stopWebhook o e "")
      ("organization_id, environment_id, and webhook_id are required")) ∧
    (∀ e w : String, rejectsWithoutRequest (generateWebhookKey "" e w)
      ("organization_id, environment_id, and webhook_id are required")) ∧
    (∀ o w : String, rejectsWithoutRequest (generateWebhookKey o "" w)
      ("organization_id, environment_id, and webhook_id are required")) ∧
    (∀ o e : String, rejectsWithoutRequest (generateWebhookKey o e "")
      ("organization_id, environment_id, and webhook_id are required")) := by
  repeat' apply And.intro
  all_goals intros
  all_goals
    simp [rejectsWithoutRequest, rejectsWithoutBodyRequest, rejectsWithoutRunCalls,
      issuedRequests, issuedBodyRequests, issuedRunCalls,
      getWallets, getWallet, createWallet, deleteWallet, createPaymentRequest, getPayment,
      getPayments, sendPayment, getWalletLedger, getPaymentHistory, getLineOfCredit,
      getLinesOfCredit, getWebhooks, getWebhook, createWebhook, updateWebhook, deleteWebhook,
      startWebhook, stopWebhook, generateWebhookKey]

theorem appendFilter_eq_append (acc : List (String × String)) (f : String × FilterValue) :
    appendFilter acc f = acc ++ expandFilter f := by
  rcases f with ⟨k, v⟩
  cases v <;> simp [appendFilter, expandFilter]

theorem foldl_appendFilter (filters : List (String × FilterValue)) :
    ∀ acc, filters.foldl appendFilter acc = acc ++ filters.flatMap expandFilter := by
  induction filters with
  | nil => intro acc; simp
  | cons f fs ih =>
    intro acc
    simp only [List.foldl_cons, List.flatMap_cons]
    rw [appendFilter_eq_append, ih, List.append_assoc]

theorem appendScalarFilter_eq_append (acc : List (String × String)) (f : String × Option String) :
    appendScalarFilter acc f = acc ++ expandScalarFilter f := by
  rcases f with ⟨k, v⟩
  cases v <;> simp [appendScalarFilter, expandScalarFilter]

theorem foldl_appendScalarFilter (filters : List (String × Option String)) :
    ∀ acc, filters.foldl appendScalarFilter acc = acc ++ filters.flatMap expandScalarFilter := by
  induction filters with
  | nil => intro acc; simp
  | cons f fs ih =>
    intro acc
    simp only [List.foldl_cons, List.flatMap_cons]
    rw [appendScalarFilter_eq_append, ih, List.append_assoc]

/-- C9: list-endpoint filter serialization — the accumulated query entries
are exactly the in-order expansion of each filter entry (so array values
become repeated same-named parameters in their original order and absent
values contribute nothing), every supplied scalar filter appears, an
all-absent filter record leaves the URL without any query string, the
claimed `statuses` example renders in order, and the three list endpoints
build their URLs from exactly this serialization. -/
theorem list_endpoint_filter_serialization :
    (∀ filters : List (String × FilterValue),
      buildQueryParams filters = filters.flatMap expandFilter) ∧
    (∀ (filters : List (String × FilterValue)) (k v : String),
      (k, FilterValue.scalar v) ∈ filters → (k, v) ∈ buildQueryParams filters) ∧
    (∀ filters : List (String × Option String),
      buildScalarQueryParams filters = filters.flatMap expandScalarFilter) ∧
    (∀ (path : String) (filters : List (String × FilterValue)),
      (∀ kv ∈ filters, kv.2 = FilterValue.missing) → withQuery path filters = path) ∧
    (∀ (path : String) (filters : List (String × Option String)),
      (∀ kv ∈ filters, kv.2 = none) → withScalarQuery path filters = path) ∧
    renderQueryString (buildQueryParams [("statuses", FilterValue.many ["completed", "sending"])]) =
      "statuses=completed&statuses=sending" ∧
    (∀ (org env : String) (filters : List (String × FilterValue)), org ≠ "" → env ≠ "" →
      getPayments org env filters = .ok ⟨"GET", withQuery (paymentsPath org env) filters⟩) ∧
    (∀ (org : String) (filters : List (String × FilterValue)), org ≠ "" →
      getWebhooks org filters =
        .ok ⟨"GET", withQuery ("/organizations/" ++ org ++ "/webhooks") filters⟩) ∧
    (∀ (org wid : String) (filters : List (String × Option String)), org ≠ "" → wid ≠ "" →
      getWalletLedger org wid filters =
        .ok ⟨"GET", withScalarQuery
          ("/organizations/" ++ org ++ "/wallets/" ++ wid ++ "/ledger") filters⟩) := by
  have hb : ∀ filters : List (String × FilterValue),
      buildQueryParams filters = filters.flatMap expandFilter := by
    intro filters
    have := foldl_appendFilter filters []
    simpa [buildQueryParams] using this
  have hs : ∀ filters : List (String × Option String),
      buildScalarQueryParams filters = filters.flatMap expandScalarFilter := by
    intro filters
    have := foldl_appendScalarFilter filters []
    simpa [buildScalarQueryParams] using this
  refine ⟨hb, ?_, hs, ?_, ?_, by rfl, ?_, ?_, ?_⟩
  · intro filters k v hmem
    rw [hb]
    rw [List.mem_flatMap]
    exact ⟨(k, FilterValue.scalar v), hmem, by simp [expandFilter]⟩
  · intro path filters hall
    have hnil : filters.flatMap expandFilter = [] := by
      induction filters with
      | nil => rfl
      | cons f fs ih =>
        have hf : f.2 = FilterValue.missing := hall f (by simp)
        rcases f with ⟨k, v⟩
        simp only at hf
        rw [hf] at *
        simp only [List.flatMap_cons, expandFilter, List.nil_append]
        exact ih (fun kv hkv => hall kv (by simp [hkv]))
    have hi : ("&".intercalate ([] : List String)) = "" := rfl
    simp [withQuery, hb, hnil, renderQueryString, hi, String.append_empty]
  · intro path filters hall
    have hnil : filters.flatMap expandScalarFilter = [] := by
      induction filters with
      | nil => rfl
      | cons f fs ih =>
        have hf : f.2 = none := hall f (by simp)
        rcases f with ⟨k, v⟩
        simp only at hf
        rw [hf] at *
        simp only [List.flatMap_cons, expandScalarFilter, List.nil_append]
        exact ih (fun kv hkv => hall kv (by simp [hkv]))
    have hi : ("&".intercalate ([] : List String)) = "" := rfl
    simp [withScalarQuery, hs, hnil, renderQueryString, hi, String.append_empty]
  · intro org env filters horg henv
    simp [getPayments, horg, henv]
  · intro org filters horg
    simp [getWebhooks, horg]
  · intro org wid filters horg hwid
    simp [getWalletLedger, horg, hwid]

/-- Witness for C9: a supplied scalar filter appears among the query
entries, and an all-absent filter record produces a query-free URL. -/
theorem list_endpoint_filter_serialization_witness :
    ("wallet_id", "w1") ∈ buildQueryParams
      [("wallet_id", FilterValue.scalar "w1"), ("kind", FilterValue.missing)] ∧
    withQuery ("/organizations/o/environments/e/payments")
      [("kind", FilterValue.missing)] = "/organizations/o/environments/e/payments" :=
  ⟨list_endpoint_filter_serialization.2.1
      [("wallet_id", FilterValue.scalar "w1"), ("kind", FilterValue.missing)]
      ("wallet_id") ("w1") (by simp),
   list_endpoint_filter_serialization.2.2.2.1 ("/organizations/o/environments/e/payments")
      [("kind", FilterValue.missing)] (by simp)⟩

end Voltage
